import Mathlib

/-!
Shallow embedding of the secure-print authorization and rendering pipeline
(the Deno `serve` handler in the secure-print edge function) and of the
page-size policy of the SVG-to-PDF conversion service
(`frontend/svg-to-pdf-service/index.js`).

Machine conventions:
* byte buffers are `List Nat`;
* a parsed paged document (pdf-lib `PDFDocument`) is a `PDF` value: a list of
  pages, each with a width, a height and a list of vector draw operations;
* JavaScript numbers that matter here are modelled as `ℚ` (all literals in the
  relevant code are exactly representable decimals), with `Option ℚ` where
  `Number.isFinite` is consulted (`none` standing for NaN or ±Infinity);
* the database, storage, clock and delegate services reached over the network
  are inputs in an `Env` record, and the handler is a pure function from an
  environment and a request to an `Outcome` (response, final ledger state,
  audit-log inserts, and the trace of pipeline stages as they were entered).
-/

/-- Raw byte buffer (JS `ArrayBuffer` contents). -/
abbrev Buffer := List Nat

/-- One vector text-drawing operation, as issued by pdf-lib `page.drawText`
with the options used by the handler. -/
structure DrawOp where
  text : String
  x : ℚ
  y : ℚ
  size : ℚ
  /-- The `rotate: degrees(d)` option when present; `none` when omitted. -/
  rotate : Option ℚ
  opacity : ℚ
  colorR : ℚ
  colorG : ℚ
  colorB : ℚ
  deriving DecidableEq

/-- One page of a parsed paged document. -/
structure Page where
  width : ℚ
  height : ℚ
  ops : List DrawOp
  deriving DecidableEq

/-- A parsed paged document (pdf-lib `PDFDocument`). -/
structure PDF where
  pages : List Page
  deriving DecidableEq

/-- The joined `documents` row. -/
structure Document where
  id : String
  storage_path : String
  deriving DecidableEq

/-- A `document_access` row (an access grant) joined with its document. -/
structure Grant where
  id : Nat
  session_token : String
  user_id : String
  remaining_prints : Int
  /-- Expiry instant; the handler compares it with the current time. -/
  expires_at : Nat
  watermark_text : Option String
  documents : Option Document
  deriving DecidableEq

/-- A `print_logs` insert, with exactly the fields the handler supplies. -/
structure PrintLogEntry where
  document_id : String
  user_id : String
  session_token : String
  ip_address : String
  user_agent : String
  deriving DecidableEq

/-- Outcome of the enhancement delegate `fetch` call. -/
inductive EnhanceOutcome where
  /-- The `fetch` (or a later body read) threw. -/
  | fetchThrew : EnhanceOutcome
  /-- The delegate answered; `ok` is `Response.ok`, `body` the response bytes. -/
  | response (ok : Bool) (body : Buffer) : EnhanceOutcome
  deriving DecidableEq

/-- Environment of one request: clock, database, storage and delegates. -/
structure Env where
  /-- Current instant, used for the `expires_at` comparison. -/
  now : Nat
  /-- The same instant rendered by `Date.toISOString()`. -/
  nowIso : String
  /-- The `document_access` table (each row joined with its document). -/
  db : List Grant
  /-- Storage download by path; `none` models a download error. -/
  storage : String → Option Buffer
  /-- Whether the `update` of `remaining_prints` commits without error. -/
  updateOk : Bool
  /-- Whether the `print_logs` insert commits without error. -/
  logOk : Bool
  /-- The SVG-to-PDF delegate; `none` models a non-ok response status. -/
  svgConvert : String → Option Buffer
  /-- Value of `PDF_ENHANCE_URL`, when set. -/
  enhanceUrl : Option String
  /-- Result of the enhancement delegate call, when one is made. -/
  enhanceCall : EnhanceOutcome
  /-- Model of `PDFDocument.load`; `none` is a parse failure (a throw). -/
  loadPdf : Buffer → Option PDF

/-- The parsed request body and the headers the handler reads. -/
structure Req where
  session_token : Option String
  userAgentHeader : Option String
  xForwardedFor : Option String
  cfConnectingIp : Option String
  deriving DecidableEq

/-- JSON error bodies produced by the handler: an `error` string and, for the
quota rejection only, a `remaining_prints` field. -/
structure JsonBody where
  error : String
  remaining_prints : Option Nat := none
  deriving DecidableEq

/-- A response body: a JSON error object or the final document bytes
(kept in parsed form; serialization is injectively irrelevant here). -/
inductive Body where
  | json (j : JsonBody) : Body
  | doc (d : PDF) : Body
  deriving DecidableEq

/-- An HTTP response. -/
structure Resp where
  status : Nat
  body : Body
  headers : List (String × String)
  deriving DecidableEq

/-- Pipeline stages; a stage is traced when the handler enters the
corresponding code region. -/
inductive Stage where
  | validate : Stage
  | fetch : Stage
  | decrement : Stage
  | audit : Stage
  | normalize : Stage
  | enhance : Stage
  | watermark : Stage
  | deliver : Stage
  deriving DecidableEq

/-- Full observable outcome of one request. -/
structure Outcome where
  resp : Resp
  db : List Grant
  logs : List PrintLogEntry
  trace : List Stage
  deriving DecidableEq

/-- JS `String.prototype.toLowerCase` (character-wise lowering). -/
def jsToLower (s : String) : String :=
  String.mk (s.data.map Char.toLower)

/-- JS `String.prototype.endsWith`. -/
def jsEndsWith (s suffix : String) : Bool :=
  suffix.data.isSuffixOf s.data

/-- JS `a || b` for an optional string with a string fallback: `null`,
`undefined` and the empty string all fall through. -/
def jsOrStr (a : Option String) (b : String) : String :=
  match a with
  | some s => if s = "" then b else s
  | none => b

/-- UTF-8-agnostic byte-to-text view used for `fileData.text()`. -/
def textOf (b : Buffer) : String :=
  String.mk (b.map (fun n => Char.ofNat n))

/-- The session lookup: first `document_access` row whose `session_token`
matches and whose `expires_at` is strictly in the future (`.gt`). -/
def findAccess (db : List Grant) (tok : String) (now : Nat) : Option Grant :=
  db.find? (fun g => g.session_token == tok && decide (now < g.expires_at))

/-- The ledger write: set `remaining_prints` to `v` on every row whose `id`
matches (`.update(...).eq('id', access.id)`). -/
def updateGrant (db : List Grant) (gid : Nat) (v : Int) : List Grant :=
  db.map (fun g => if g.id = gid then { g with remaining_prints := v } else g)

/-- CORS headers plus the JSON content type, as on every error response. -/
def jsonHeaders : List (String × String) :=
  [("Access-Control-Allow-Origin", "*"),
   ("Access-Control-Allow-Headers", "authorization, x-client-info, apikey, content-type"),
   ("Content-Type", "application/json")]

/-- A JSON error response. -/
def errResp (status : Nat) (msg : String) (rp : Option Nat) : Resp :=
  { status := status, body := Body.json { error := msg, remaining_prints := rp },
    headers := jsonHeaders }

/-- The headers of a successful delivery, including the post-decrement
remaining-use count as a string integer. -/
def successHeaders (nr : Int) : List (String × String) :=
  [("Access-Control-Allow-Origin", "*"),
   ("Access-Control-Allow-Headers", "authorization, x-client-info, apikey, content-type"),
   ("Content-Type", "application/pdf"),
   ("Content-Disposition", "inline"),
   ("Cache-Control", "no-store, no-cache, must-revalidate, private"),
   ("Pragma", "no-cache"),
   ("Expires", "0"),
   ("X-Download-Options", "noopen"),
   ("X-Content-Type-Options", "nosniff"),
   ("X-Remaining-Prints", toString nr)]

/-- The enhancement stage: with no `PDF_ENHANCE_URL` it is skipped; otherwise
the delegate's answer replaces the buffer only on an ok status with a
non-empty body, and a throw is swallowed (the surrounding `try`). -/
def enhanceStage (env : Env) (buf : Buffer) : Buffer :=
  match env.enhanceUrl with
  | none => buf
  | some _ =>
    match env.enhanceCall with
    | EnhanceOutcome.fetchThrew => buf
    | EnhanceOutcome.response ok body =>
      if ok && !body.isEmpty then body else buf

/-- JS `access.watermark_text || 'Licensed Print'`. -/
def baseWatermark (g : Grant) : String :=
  match g.watermark_text with
  | some s => if s = "" then "Licensed Print" else s
  | none => "Licensed Print"

/-- The diagonal tracking string drawn across every page. -/
def trackingText (g : Grant) (nowIso tok : String) : String :=
  baseWatermark g ++ " - " ++ nowIso ++ " - ID: " ++ tok

/-- The footer line drawn near the bottom-left of every page. -/
def footerText (tok : String) (nr : Int) : String :=
  "Secure Print | Session: " ++ tok ++ " | Remaining: " ++ toString nr

/-- The diagonal watermark draw call (18 pt, −30°, opacity 0.25,
gray 0.5, anchored at 15% of width and 50% of height). -/
def trackingOp (txt : String) (w h : ℚ) : DrawOp :=
  { text := txt, x := w * (15 / 100), y := h * (1 / 2), size := 18,
    rotate := some (-30), opacity := 1 / 4,
    colorR := 1 / 2, colorG := 1 / 2, colorB := 1 / 2 }

/-- The footer draw call (10 pt, no rotation, opacity 0.7, gray 0.4,
anchored at 10% of width and 24 pt from the bottom). -/
def footerOp (txt : String) (w : ℚ) : DrawOp :=
  { text := txt, x := w * (1 / 10), y := 24, size := 10,
    rotate := none, opacity := 7 / 10,
    colorR := 2 / 5, colorG := 2 / 5, colorB := 2 / 5 }

/-- Watermark one page: append the two draw operations. -/
def watermarkPage (tr ft : String) (p : Page) : Page :=
  { p with ops := p.ops ++ [trackingOp tr p.width p.height, footerOp ft p.width] }

/-- Watermark every page of the document, in document order. -/
def watermarkPdf (tr ft : String) (d : PDF) : PDF :=
  { pages := d.pages.map (watermarkPage tr ft) }

/-- The normalization step: an SVG source (decided by the lowercased storage
path ending in `.svg`) goes through the SVG-to-PDF delegate, anything else is
passed through; `none` is the delegate's non-ok status. -/
def normalizeBuf (env : Env) (document : Document) (fileData : Buffer) : Option Buffer :=
  if jsEndsWith (jsToLower document.storage_path) ".svg" then
    env.svgConvert (textOf fileData)
  else
    some fileData

/-- The trace of a run that reaches delivery. -/
def fullTrace : List Stage :=
  [Stage.validate, Stage.fetch, Stage.decrement, Stage.audit,
   Stage.normalize, Stage.enhance, Stage.watermark, Stage.deliver]

/-- The secure-print handler, translated branch for branch from the source:
reject a falsy session token (absent or the empty string — JS
`if (!session_token)`), validate the session, check the print limit, resolve
the document, download the file, decrement the counter, insert the audit
log, convert SVG sources, optionally enhance, watermark every page, and
deliver. -/
def securePrint (env : Env) (req : Req) : Outcome :=
  match req.session_token with
  | none =>
    { resp := errResp 400 "Session token required" none,
      db := env.db, logs := [], trace := [] }
  | some tok =>
    if tok = "" then
      { resp := errResp 400 "Session token required" none,
        db := env.db, logs := [], trace := [] }
    else
    let userAgent := jsOrStr req.userAgentHeader "unknown"
    let ipAddress := jsOrStr req.xForwardedFor (jsOrStr req.cfConnectingIp "unknown")
    match findAccess env.db tok env.now with
    | none =>
      { resp := errResp 403 "Invalid or expired session" none,
        db := env.db, logs := [], trace := [Stage.validate] }
    | some access =>
      if access.remaining_prints ≤ 0 then
        { resp := errResp 403 "Print limit exceeded" (some 0),
          db := env.db, logs := [], trace := [Stage.validate] }
      else
        match access.documents with
        | none =>
          { resp := errResp 404 "Document not found" none,
            db := env.db, logs := [], trace := [Stage.validate] }
        | some document =>
          match env.storage document.storage_path with
          | none =>
            { resp := errResp 500 "Failed to retrieve document" none,
              db := env.db, logs := [],
              trace := [Stage.validate, Stage.fetch] }
          | some fileData =>
            let newRemainingPrints := access.remaining_prints - 1
            if env.updateOk then
              let db1 := updateGrant env.db access.id newRemainingPrints
              let logs := if env.logOk then
                  [{ document_id := document.id, user_id := access.user_id,
                     session_token := tok, ip_address := ipAddress,
                     user_agent := userAgent }]
                else []
              match normalizeBuf env document fileData with
              | none =>
                { resp := errResp 500 "Failed to convert SVG document for printing" none,
                  db := db1, logs := logs,
                  trace := [Stage.validate, Stage.fetch, Stage.decrement,
                            Stage.audit, Stage.normalize] }
              | some buf0 =>
                let buf1 := enhanceStage env buf0
                match env.loadPdf buf1 with
                | none =>
                  { resp := errResp 500 "Internal server error" none,
                    db := db1, logs := logs,
                    trace := [Stage.validate, Stage.fetch, Stage.decrement,
                              Stage.audit, Stage.normalize, Stage.enhance,
                              Stage.watermark] }
                | some pdfDoc =>
                  let wm := trackingText access env.nowIso tok
                  let ft := footerText tok newRemainingPrints
                  { resp := { status := 200,
                              body := Body.doc (watermarkPdf wm ft pdfDoc),
                              headers := successHeaders newRemainingPrints },
                    db := db1, logs := logs, trace := fullTrace }
            else
              { resp := errResp 500 "Failed to process print request" none,
                db := env.db, logs := [],
                trace := [Stage.validate, Stage.fetch, Stage.decrement] }

/-! ## Structural lemmas about the handler -/

/-- Every run either leaves the ledger unchanged or applies the single
decrement for the grant the validator resolved. -/
theorem securePrint_db_cases (env : Env) (req : Req) :
    (securePrint env req).db = env.db ∨
    ∃ tok access, req.session_token = some tok ∧
      findAccess env.db tok env.now = some access ∧
      0 < access.remaining_prints ∧
      (securePrint env req).db = updateGrant env.db access.id (access.remaining_prints - 1) := by
  cases htok : req.session_token with
  | none => left; simp [securePrint, htok]
  | some tok =>
    by_cases htok0 : tok = ""
    · left; simp [securePrint, htok, htok0]
    · cases hacc : findAccess env.db tok env.now with
      | none => left; simp [securePrint, htok, htok0, hacc]
      | some access =>
        by_cases hrem : access.remaining_prints ≤ 0
        · left; simp [securePrint, htok, htok0, hacc, hrem]
        · cases hdoc : access.documents with
          | none => left; simp [securePrint, htok, htok0, hacc, hrem, hdoc]
          | some document =>
            cases hfile : env.storage document.storage_path with
            | none => left; simp [securePrint, htok, htok0, hacc, hrem, hdoc, hfile]
            | some fileData =>
              by_cases hupd : env.updateOk
              · right
                refine ⟨tok, access, rfl, hacc, by omega, ?_⟩
                cases hconv : normalizeBuf env document fileData with
                | none =>
                  simp [securePrint, htok, htok0, hacc, hrem, hdoc, hfile, hupd, hconv]
                | some buf0 =>
                  cases hload : env.loadPdf (enhanceStage env buf0) with
                  | none =>
                    simp [securePrint, htok, htok0, hacc, hrem, hdoc, hfile, hupd,
                      hconv, hload]
                  | some pdfDoc =>
                    simp [securePrint, htok, htok0, hacc, hrem, hdoc, hfile, hupd,
                      hconv, hload]
              · left
                simp [securePrint, htok, htok0, hacc, hrem, hdoc, hfile, hupd]

/-- A status-200 outcome can only arise on the full success path, and then
every component of the outcome is determined. -/
theorem securePrint_success_inv (env : Env) (req : Req)
    (h : (securePrint env req).resp.status = 200) :
    env.updateOk = true ∧
    ∃ tok access document fileData buf0 pdfDoc,
      req.session_token = some tok ∧
      findAccess env.db tok env.now = some access ∧
      0 < access.remaining_prints ∧
      access.documents = some document ∧
      env.storage document.storage_path = some fileData ∧
      normalizeBuf env document fileData = some buf0 ∧
      env.loadPdf (enhanceStage env buf0) = some pdfDoc ∧
      securePrint env req =
        { resp := { status := 200,
                    body := Body.doc (watermarkPdf (trackingText access env.nowIso tok)
                              (footerText tok (access.remaining_prints - 1)) pdfDoc),
                    headers := successHeaders (access.remaining_prints - 1) },
          db := updateGrant env.db access.id (access.remaining_prints - 1),
          logs := (if env.logOk then
              [{ document_id := document.id, user_id := access.user_id, session_token := tok,
                 ip_address := jsOrStr req.xForwardedFor (jsOrStr req.cfConnectingIp "unknown"),
                 user_agent := jsOrStr req.userAgentHeader "unknown" }] else []),
          trace := fullTrace } := by
  cases htok : req.session_token with
  | none => simp [securePrint, htok, errResp] at h
  | some tok =>
    by_cases htok0 : tok = ""
    · simp [securePrint, htok, htok0, errResp] at h
    · cases hacc : findAccess env.db tok env.now with
      | none => simp [securePrint, htok, htok0, hacc, errResp] at h
      | some access =>
        by_cases hrem : access.remaining_prints ≤ 0
        · simp [securePrint, htok, htok0, hacc, hrem, errResp] at h
        · cases hdoc : access.documents with
          | none => simp [securePrint, htok, htok0, hacc, hrem, hdoc, errResp] at h
          | some document =>
            cases hfile : env.storage document.storage_path with
            | none =>
              simp [securePrint, htok, htok0, hacc, hrem, hdoc, hfile, errResp] at h
            | some fileData =>
              by_cases hupd : env.updateOk
              · cases hconv : normalizeBuf env document fileData with
                | none =>
                  simp [securePrint, htok, htok0, hacc, hrem, hdoc, hfile, hupd,
                    hconv, errResp] at h
                | some buf0 =>
                  cases hload : env.loadPdf (enhanceStage env buf0) with
                  | none =>
                    simp [securePrint, htok, htok0, hacc, hrem, hdoc, hfile, hupd,
                      hconv, hload, errResp] at h
                  | some pdfDoc =>
                    refine ⟨hupd, tok, access, document, fileData, buf0, pdfDoc,
                      rfl, hacc, by omega, hdoc, hfile, hconv, hload, ?_⟩
                    simp [securePrint, htok, htok0, hacc, hrem, hdoc, hfile, hupd,
                      hconv, hload]
              · simp [securePrint, htok, htok0, hacc, hrem, hdoc, hfile, hupd,
                  errResp] at h

/-- The ledger write changes each row by at most a decrement of one when it
writes the value the validator's grant justifies (row ids are unique). -/
theorem updateGrant_bounds (db : List Grant) (tok : String) (now : Nat) (access : Grant)
    (hids : (db.map Grant.id).Nodup)
    (hacc : findAccess db tok now = some access)
    (i : Nat) (g g' : Grant)
    (hg : db[i]? = some g)
    (hg' : (updateGrant db access.id (access.remaining_prints - 1))[i]? = some g') :
    g'.remaining_prints ≤ g.remaining_prints ∧
    g.remaining_prints - g'.remaining_prints ≤ 1 := by
  have hmem : access ∈ db := List.mem_of_find?_eq_some hacc
  rw [updateGrant, List.getElem?_map, hg] at hg'
  simp only [Option.map_some', Option.some.injEq] at hg'
  by_cases hid : g.id = access.id
  · rw [if_pos hid] at hg'
    obtain ⟨hlt, -⟩ := List.getElem?_eq_some.mp hg
    have hex : ∃ j, ∃ hjlt : j < db.length, db[j] = access := by
      obtain ⟨jf, hjf⟩ := List.get_of_mem hmem
      exact ⟨jf.1, jf.2, hjf⟩
    obtain ⟨j, hjlt, hja⟩ := hex
    have hja? : db[j]? = some access := List.getElem?_eq_some.mpr ⟨hjlt, hja⟩
    have hi' : i < (db.map Grant.id).length := by simpa using hlt
    have hij : i = j := by
      refine List.getElem?_inj hi' hids ?_
      rw [List.getElem?_map, List.getElem?_map, hg, hja?]
      simp [hid]
    have hga : g = access := by
      rw [hij] at hg
      exact Option.some_inj.mp (hg.symm.trans hja?)
    rw [← hg']
    simp only [hga]
    omega
  · rw [if_neg hid] at hg'
    rw [← hg']
    omega

/-! ## Concrete fixtures used by the witness theorems -/

/-- A stored PDF document. -/
def docW : Document := { id := "doc1", storage_path := "files/doc.pdf" }

/-- A live grant with three remaining prints. -/
def grantW : Grant :=
  { id := 1, session_token := "tok-abc", user_id := "user1",
    remaining_prints := 3, expires_at := 100,
    watermark_text := some "Confidential", documents := some docW }

/-- A one-page document as parsed by the watermark stage. -/
def pdfW : PDF := { pages := [{ width := 100, height := 50, ops := [] }] }

/-- An environment in which the request fully succeeds. -/
def envW : Env :=
  { now := 50, nowIso := "2026-01-01T00:00:00.000Z",
    db := [grantW],
    storage := fun p => if p = "files/doc.pdf" then some [7, 8] else none,
    updateOk := true, logOk := true,
    svgConvert := fun _ => none,
    enhanceUrl := none,
    enhanceCall := EnhanceOutcome.fetchThrew,
    loadPdf := fun _ => some pdfW }

/-- A request carrying grantW's token. -/
def reqW : Req :=
  { session_token := some "tok-abc", userAgentHeader := some "UA",
    xForwardedFor := some "1.2.3.4", cfConnectingIp := none }

/-- A live grant with zero remaining prints. -/
def grantZ : Grant :=
  { id := 2, session_token := "tok-z", user_id := "user2",
    remaining_prints := 0, expires_at := 100,
    watermark_text := none, documents := some docW }

/-- The successful environment with the exhausted grant instead. -/
def envZ : Env := { envW with db := [grantZ] }

/-- A request carrying grantZ's token. -/
def reqZ : Req :=
  { session_token := some "tok-z", userAgentHeader := none,
    xForwardedFor := none, cfConnectingIp := none }

/-! ## Claim theorems -/

/-- C1. For every grant and every single request execution, the stored
remaining-prints counter never increases and is decremented by at most one,
and a successful (status 200, document bytes) response is produced only if
that decrement committed to the ledger without error. -/
theorem remainingPrints_monotone_and_delivery_coupled (env : Env) (req : Req)
    (hids : (env.db.map Grant.id).Nodup) :
    (∀ i : Nat, ∀ g g' : Grant, env.db[i]? = some g →
        (securePrint env req).db[i]? = some g' →
        g'.remaining_prints ≤ g.remaining_prints ∧
        g.remaining_prints - g'.remaining_prints ≤ 1) ∧
    ((securePrint env req).resp.status = 200 ∧
        (∃ d, (securePrint env req).resp.body = Body.doc d) →
      env.updateOk = true ∧
      ∃ tok access, req.session_token = some tok ∧
        findAccess env.db tok env.now = some access ∧
        0 < access.remaining_prints ∧
        (securePrint env req).db =
          updateGrant env.db access.id (access.remaining_prints - 1)) := by
  constructor
  · intro i g g' hg hg'
    rcases securePrint_db_cases env req with hdb | ⟨tok, access, _, hacc, _, hdb⟩
    · rw [hdb, hg] at hg'
      cases hg'
      omega
    · rw [hdb] at hg'
      exact updateGrant_bounds env.db tok env.now access hids hacc i g g' hg hg'
  · rintro ⟨h200, -⟩
    obtain ⟨hupd, tok, access, _, _, _, _, htok, hacc, hpos, _, _, _, _, hout⟩ :=
      securePrint_success_inv env req h200
    exact ⟨hupd, tok, access, htok, hacc, hpos, by rw [hout]⟩

/-- Witness for C1 at a concrete successful run. -/
theorem remainingPrints_monotone_and_delivery_coupled_witness :
    (envW.db.map Grant.id).Nodup ∧
    ((∀ i : Nat, ∀ g g' : Grant, envW.db[i]? = some g →
        (securePrint envW reqW).db[i]? = some g' →
        g'.remaining_prints ≤ g.remaining_prints ∧
        g.remaining_prints - g'.remaining_prints ≤ 1) ∧
    ((securePrint envW reqW).resp.status = 200 ∧
        (∃ d, (securePrint envW reqW).resp.body = Body.doc d) →
      envW.updateOk = true ∧
      ∃ tok access, reqW.session_token = some tok ∧
        findAccess envW.db tok envW.now = some access ∧
        0 < access.remaining_prints ∧
        (securePrint envW reqW).db =
          updateGrant envW.db access.id (access.remaining_prints - 1))) :=
  ⟨by decide, remainingPrints_monotone_and_delivery_coupled envW reqW (by decide)⟩

/-- C5. For every valid, unexpired grant (with a non-empty token, as any
token reaching validation is) whose remainingPrints equals 0, the request
returns status 403 with the print-limit-exceeded body carrying
`remaining_prints = 0`, and the ledger value for that grant is unchanged. -/
theorem quota_exhausted_rejected (env : Env) (req : Req) (tok : String) (access : Grant)
    (htok : req.session_token = some tok)
    (htok0 : tok ≠ "")
    (hacc : findAccess env.db tok env.now = some access)
    (hrem : access.remaining_prints = 0) :
    (securePrint env req).resp.status = 403 ∧
    (securePrint env req).resp.body =
      Body.json { error := "Print limit exceeded", remaining_prints := some 0 } ∧
    (securePrint env req).db = env.db ∧
    (securePrint env req).logs = [] := by
  have hle : access.remaining_prints ≤ 0 := by omega
  simp [securePrint, htok, htok0, hacc, hle, errResp]

/-- Witness for C5 at a concrete exhausted grant. -/
theorem quota_exhausted_rejected_witness :
    (securePrint envZ reqZ).resp.status = 403 ∧
    (securePrint envZ reqZ).resp.body =
      Body.json { error := "Print limit exceeded", remaining_prints := some 0 } ∧
    (securePrint envZ reqZ).db = envZ.db ∧
    (securePrint envZ reqZ).logs = [] :=
  quota_exhausted_rejected envZ reqZ "tok-z" grantZ (by decide) (by decide) (by decide)
    (by decide)

/-- C6. A request whose (non-empty) session token is unknown and a request
whose grant's expiry is not in the future produce the same externally
visible error response (status 403, invalid-or-expired body), regardless of
the grant's remaining prints, and in both cases no quota decrement occurs
(an absent or empty token is stopped earlier by the 400 falsy-token gate). -/
theorem invalid_and_expired_uniform (env : Env) (req : Req) (tok : String)
    (htok : req.session_token = some tok)
    (htok0 : tok ≠ "")
    (hcase : (∀ g ∈ env.db, g.session_token ≠ tok) ∨
             (∀ g ∈ env.db, g.session_token = tok → g.expires_at ≤ env.now)) :
    (securePrint env req).resp.status = 403 ∧
    (securePrint env req).resp.body =
      Body.json { error := "Invalid or expired session", remaining_prints := none } ∧
    (securePrint env req).db = env.db ∧
    (securePrint env req).logs = [] := by
  have hfind : findAccess env.db tok env.now = none := by
    rw [findAccess, List.find?_eq_none]
    intro g hg
    simp only [Bool.and_eq_true, beq_iff_eq, decide_eq_true_eq, not_and]
    intro hs
    rcases hcase with hC | hC
    · exact absurd hs (hC g hg)
    · have := hC g hg hs
      omega
  simp [securePrint, htok, htok0, hfind, errResp]

/-- Witness for C6: an unknown token against the live database. -/
theorem invalid_and_expired_uniform_witness :
    (securePrint envW { reqZ with session_token := some "tok-unknown" }).resp.status = 403 ∧
    (securePrint envW { reqZ with session_token := some "tok-unknown" }).resp.body =
      Body.json { error := "Invalid or expired session", remaining_prints := none } ∧
    (securePrint envW { reqZ with session_token := some "tok-unknown" }).db = envW.db ∧
    (securePrint envW { reqZ with session_token := some "tok-unknown" }).logs = [] :=
  invalid_and_expired_uniform envW { reqZ with session_token := some "tok-unknown" }
    "tok-unknown" (by decide) (by decide) (Or.inl (by decide))

/-- Failure of the enhancement delegate call: the fetch threw, the response
status was not ok, or the body was empty. -/
def enhanceFails (env : Env) : Prop :=
  env.enhanceCall = EnhanceOutcome.fetchThrew ∨
  (∃ b, env.enhanceCall = EnhanceOutcome.response false b) ∨
  env.enhanceCall = EnhanceOutcome.response true []

/-- A failed enhancement stage passes its input through unchanged. -/
theorem enhanceStage_inert (env : Env) (hfail : enhanceFails env) (buf : Buffer) :
    enhanceStage env buf = buf := by
  rcases hfail with h | ⟨b, h⟩ | h <;>
    cases hurl : env.enhanceUrl <;> simp [enhanceStage, hurl, h]

/-- C7. If the enhancement stage fails in any way — the delegate call
throws, returns a non-success status, or returns an empty body — the byte
stream passed on to watermarking equals the pre-enhancement byte stream, and
the whole request outcome is identical to running with enhancement disabled
(no `PDF_ENHANCE_URL`); in particular the stage never aborts the request. -/
theorem enhancement_failure_inert (env : Env) (req : Req) (hfail : enhanceFails env) :
    (∀ buf, enhanceStage env buf = buf) ∧
    securePrint env req = securePrint { env with enhanceUrl := none } req := by
  have h1 : ∀ buf, enhanceStage env buf = buf := enhanceStage_inert env hfail
  have h2 : ∀ buf, enhanceStage { env with enhanceUrl := none } buf = buf := by
    intro buf
    simp [enhanceStage]
  refine ⟨h1, ?_⟩
  simp only [securePrint, normalizeBuf, findAccess, updateGrant, h1, h2]

/-- An environment whose enhancement delegate is configured but answers with
a non-success status. -/
def envE : Env :=
  { envW with enhanceUrl := some "https://enhance.example",
              enhanceCall := EnhanceOutcome.response false [1, 2, 3] }

/-- Witness for C7: the configured-but-failing delegate changes nothing. -/
theorem enhancement_failure_inert_witness :
    enhanceFails envE ∧
    ((∀ buf, enhanceStage envE buf = buf) ∧
     securePrint envE reqW = securePrint { envE with enhanceUrl := none } reqW) :=
  ⟨Or.inr (Or.inl ⟨[1, 2, 3], rfl⟩),
   enhancement_failure_inert envE reqW (Or.inr (Or.inl ⟨[1, 2, 3], rfl⟩))⟩

/-- C3 counterexample. In a concrete successful run the handler enters
the source fetch before the quota decrement and the audit-log insert before
watermarking, contradicting the claimed decrement-before-fetch and
audit-after-watermark order. -/
theorem stage_order_counterexample :
    (securePrint envW reqW).resp.status = 200 ∧
    (securePrint envW reqW).trace =
      [Stage.validate, Stage.fetch, Stage.decrement, Stage.audit,
       Stage.normalize, Stage.enhance, Stage.watermark, Stage.deliver] ∧
    (securePrint envW reqW).trace.indexOf Stage.fetch <
      (securePrint envW reqW).trace.indexOf Stage.decrement ∧
    ¬ ((securePrint envW reqW).trace.indexOf Stage.decrement <
        (securePrint envW reqW).trace.indexOf Stage.fetch) ∧
    (securePrint envW reqW).trace.indexOf Stage.audit <
      (securePrint envW reqW).trace.indexOf Stage.watermark ∧
    ¬ ((securePrint envW reqW).trace.indexOf Stage.watermark <
        (securePrint envW reqW).trace.indexOf Stage.audit) := by
  decide

/-- C3 (amended). Pipeline stages of a delivering run execute in the
order: access validation, then source fetch, then quota decrement, then
audit logging, then normalization, then enhancement, then watermarking, then
delivery; in particular the source fetch happens before the quota decrement
and the audit-log insert before watermarking. -/
theorem stage_order_of_successful_run (env : Env) (req : Req)
    (h : (securePrint env req).resp.status = 200) :
    (securePrint env req).trace =
      [Stage.validate, Stage.fetch, Stage.decrement, Stage.audit,
       Stage.normalize, Stage.enhance, Stage.watermark, Stage.deliver] := by
  obtain ⟨_, tok, access, document, fileData, buf0, pdfDoc, _, _, _, _, _, _, _, hout⟩ :=
    securePrint_success_inv env req h
  rw [hout]
  rfl

/-- Witness for C3 (amended) at a concrete successful run. -/
theorem stage_order_of_successful_run_witness :
    (securePrint envW reqW).resp.status = 200 ∧
    (securePrint envW reqW).trace =
      [Stage.validate, Stage.fetch, Stage.decrement, Stage.audit,
       Stage.normalize, Stage.enhance, Stage.watermark, Stage.deliver] :=
  ⟨by decide, stage_order_of_successful_run envW reqW (by decide)⟩

/-- The successful environment with a higher stored remaining count. -/
def envB : Env := { envW with db := [{ grantW with remaining_prints := 8 }] }

/-- C4 counterexample. Two runs identical except for the stored remaining
count deliver different remaining-count headers but exactly the same
(non-empty) audit-log insert: the post-decrement count does not flow into
the audit-log entry. -/
theorem audit_log_omits_remaining_count :
    (securePrint envW reqW).resp.status = 200 ∧
    (securePrint envB reqW).resp.status = 200 ∧
    (securePrint envW reqW).logs = (securePrint envB reqW).logs ∧
    (securePrint envW reqW).logs ≠ [] ∧
    (securePrint envW reqW).resp.headers ≠ (securePrint envB reqW).resp.headers := by
  decide

/-- C4 (amended). On every successful consumption the new remaining
count flows unchanged into the response headers as the string-integer
remaining-use header; the audit-log entry records the document id, grant
owner, session token, client address and user agent, and does not include
the remaining count. -/
theorem remaining_count_header_and_log (env : Env) (req : Req)
    (h : (securePrint env req).resp.status = 200) :
    ∃ tok access document,
      req.session_token = some tok ∧
      findAccess env.db tok env.now = some access ∧
      access.documents = some document ∧
      ("X-Remaining-Prints", toString (access.remaining_prints - 1)) ∈
        (securePrint env req).resp.headers ∧
      (securePrint env req).logs = (if env.logOk then
          [{ document_id := document.id, user_id := access.user_id, session_token := tok,
             ip_address := jsOrStr req.xForwardedFor (jsOrStr req.cfConnectingIp "unknown"),
             user_agent := jsOrStr req.userAgentHeader "unknown" }] else []) := by
  obtain ⟨_, tok, access, document, fileData, buf0, pdfDoc, htok, hacc, _, hdoc, _, _, _, hout⟩ :=
    securePrint_success_inv env req h
  refine ⟨tok, access, document, htok, hacc, hdoc, ?_, by rw [hout]⟩
  rw [hout]
  simp [successHeaders]

/-- Witness for C4 (amended) at a concrete successful run. -/
theorem remaining_count_header_and_log_witness :
    (securePrint envW reqW).resp.status = 200 ∧
    ∃ tok access document,
      reqW.session_token = some tok ∧
      findAccess envW.db tok envW.now = some access ∧
      access.documents = some document ∧
      ("X-Remaining-Prints", toString (access.remaining_prints - 1)) ∈
        (securePrint envW reqW).resp.headers ∧
      (securePrint envW reqW).logs = (if envW.logOk then
          [{ document_id := document.id, user_id := access.user_id, session_token := tok,
             ip_address := jsOrStr reqW.xForwardedFor (jsOrStr reqW.cfConnectingIp "unknown"),
             user_agent := jsOrStr reqW.userAgentHeader "unknown" }] else []) :=
  ⟨by decide, remaining_count_header_and_log envW reqW (by decide)⟩

/-- C9. On every page of the delivered document the compositor draws the
tracking string — `watermarkText` (or the fixed default), a separator, the
clock's UTC ISO timestamp, a separator, and the session token — anchored at
15% of page width and 50% of page height, rotated −30 degrees at opacity
0.25 and fixed size 18; and a footer line near the bottom-left containing
the exact session token and the post-decrement remaining count, at the
higher opacity 0.7. -/
theorem watermark_layout (env : Env) (req : Req)
    (h : (securePrint env req).resp.status = 200) :
    ∃ tok access pdfDoc,
      req.session_token = some tok ∧
      findAccess env.db tok env.now = some access ∧
      (securePrint env req).resp.body =
        Body.doc (watermarkPdf (trackingText access env.nowIso tok)
          (footerText tok (access.remaining_prints - 1)) pdfDoc) ∧
      trackingText access env.nowIso tok =
        baseWatermark access ++ " - " ++ env.nowIso ++ " - ID: " ++ tok ∧
      footerText tok (access.remaining_prints - 1) =
        "Secure Print | Session: " ++ tok ++ " | Remaining: " ++
          toString (access.remaining_prints - 1) ∧
      ∀ p ∈ (watermarkPdf (trackingText access env.nowIso tok)
          (footerText tok (access.remaining_prints - 1)) pdfDoc).pages,
        ∃ pre,
          p.ops = pre ++
            [{ text := trackingText access env.nowIso tok,
               x := p.width * (15 / 100), y := p.height * (1 / 2), size := 18,
               rotate := some (-30), opacity := 1 / 4,
               colorR := 1 / 2, colorG := 1 / 2, colorB := 1 / 2 },
             { text := footerText tok (access.remaining_prints - 1),
               x := p.width * (1 / 10), y := 24, size := 10,
               rotate := none, opacity := 7 / 10,
               colorR := 2 / 5, colorG := 2 / 5, colorB := 2 / 5 }] ∧
          (1 / 4 : ℚ) < 7 / 10 := by
  obtain ⟨_, tok, access, document, fileData, buf0, pdfDoc, htok, hacc, _, _, _, _, _, hout⟩ :=
    securePrint_success_inv env req h
  refine ⟨tok, access, pdfDoc, htok, hacc, by rw [hout], rfl, rfl, ?_⟩
  intro p hp
  simp only [watermarkPdf, List.mem_map] at hp
  obtain ⟨q, hq, rfl⟩ := hp
  refine ⟨q.ops, ?_, by norm_num⟩
  simp [watermarkPage, trackingOp, footerOp]

/-- Witness for C9 at a concrete successful run. -/
theorem watermark_layout_witness :
    (securePrint envW reqW).resp.status = 200 ∧
    ∃ tok access pdfDoc,
      reqW.session_token = some tok ∧
      findAccess envW.db tok envW.now = some access ∧
      (securePrint envW reqW).resp.body =
        Body.doc (watermarkPdf (trackingText access envW.nowIso tok)
          (footerText tok (access.remaining_prints - 1)) pdfDoc) ∧
      trackingText access envW.nowIso tok =
        baseWatermark access ++ " - " ++ envW.nowIso ++ " - ID: " ++ tok ∧
      footerText tok (access.remaining_prints - 1) =
        "Secure Print | Session: " ++ tok ++ " | Remaining: " ++
          toString (access.remaining_prints - 1) ∧
      ∀ p ∈ (watermarkPdf (trackingText access envW.nowIso tok)
          (footerText tok (access.remaining_prints - 1)) pdfDoc).pages,
        ∃ pre,
          p.ops = pre ++
            [{ text := trackingText access envW.nowIso tok,
               x := p.width * (15 / 100), y := p.height * (1 / 2), size := 18,
               rotate := some (-30), opacity := 1 / 4,
               colorR := 1 / 2, colorG := 1 / 2, colorB := 1 / 2 },
             { text := footerText tok (access.remaining_prints - 1),
               x := p.width * (1 / 10), y := 24, size := 10,
               rotate := none, opacity := 7 / 10,
               colorR := 2 / 5, colorG := 2 / 5, colorB := 2 / 5 }] ∧
          (1 / 4 : ℚ) < 7 / 10 :=
  ⟨by decide, watermark_layout envW reqW (by decide)⟩

/-- C10. The watermarking stage leaves page count and every page's
dimensions unchanged, and the delivered document has the same page count and
page dimensions as the loaded (possibly enhanced) normalized input. -/
theorem watermark_preserves_pages (env : Env) (req : Req)
    (h : (securePrint env req).resp.status = 200) :
    (∀ (tr ft : String) (d : PDF),
      (watermarkPdf tr ft d).pages.length = d.pages.length ∧
      (watermarkPdf tr ft d).pages.map (fun p => (p.width, p.height)) =
        d.pages.map (fun p => (p.width, p.height))) ∧
    ∃ document fileData buf0 pdfDoc d,
      normalizeBuf env document fileData = some buf0 ∧
      env.loadPdf (enhanceStage env buf0) = some pdfDoc ∧
      (securePrint env req).resp.body = Body.doc d ∧
      d.pages.length = pdfDoc.pages.length ∧
      d.pages.map (fun p => (p.width, p.height)) =
        pdfDoc.pages.map (fun p => (p.width, p.height)) := by
  have hgen : ∀ (tr ft : String) (d : PDF),
      (watermarkPdf tr ft d).pages.length = d.pages.length ∧
      (watermarkPdf tr ft d).pages.map (fun p => (p.width, p.height)) =
        d.pages.map (fun p => (p.width, p.height)) := by
    intro tr ft d
    constructor
    · simp [watermarkPdf]
    · rw [watermarkPdf, List.map_map]
      rfl
  refine ⟨hgen, ?_⟩
  obtain ⟨_, tok, access, document, fileData, buf0, pdfDoc, _, _, _, _, _, hconv, hload, hout⟩ :=
    securePrint_success_inv env req h
  refine ⟨document, fileData, buf0, pdfDoc,
    watermarkPdf (trackingText access env.nowIso tok)
      (footerText tok (access.remaining_prints - 1)) pdfDoc,
    hconv, hload, by rw [hout], (hgen _ _ _).1, (hgen _ _ _).2⟩

/-- Witness for C10 at a concrete successful run. -/
theorem watermark_preserves_pages_witness :
    (securePrint envW reqW).resp.status = 200 ∧
    ((∀ (tr ft : String) (d : PDF),
      (watermarkPdf tr ft d).pages.length = d.pages.length ∧
      (watermarkPdf tr ft d).pages.map (fun p => (p.width, p.height)) =
        d.pages.map (fun p => (p.width, p.height))) ∧
    ∃ document fileData buf0 pdfDoc d,
      normalizeBuf envW document fileData = some buf0 ∧
      envW.loadPdf (enhanceStage envW buf0) = some pdfDoc ∧
      (securePrint envW reqW).resp.body = Body.doc d ∧
      d.pages.length = pdfDoc.pages.length ∧
      d.pages.map (fun p => (p.width, p.height)) =
        pdfDoc.pages.map (fun p => (p.width, p.height))) :=
  ⟨by decide, watermark_preserves_pages envW reqW (by decide)⟩

/-! ## Quota concurrency model

The handler's quota consumption is a read (`select remaining_prints`),
a check (`remaining_prints <= 0`) and an unconditional write
(`update remaining_prints = read - 1`), three separate database calls.
The model below runs several such requests step-interleaved against one
shared counter. -/

/-- Per-request protocol state: what the request has read, and its outcome
(`some true` success, `some false` the quota-exceeded rejection). -/
structure QuotaReq where
  readVal : Option Int
  outcome : Option Bool
  deriving DecidableEq

/-- One scheduled step of one request: a fresh request performs the `select`
(capturing the stored value); a request that has read checks its captured
value and, when positive, unconditionally overwrites the counter with
`captured - 1`; a finished request does nothing. -/
def qstep (ledger : Int) (r : QuotaReq) : Int × QuotaReq :=
  match r.readVal with
  | none => (ledger, { r with readVal := some ledger })
  | some v =>
    match r.outcome with
    | some _ => (ledger, r)
    | none =>
      if v ≤ 0 then (ledger, { r with outcome := some false })
      else (v - 1, { r with outcome := some true })

/-- Run a schedule (a list of request indices) of `n` requests against an
initial counter value; out-of-range indices are ignored. -/
def runSched (init : Int) (n : Nat) (sched : List Nat) : Int × List QuotaReq :=
  sched.foldl
    (fun (st : Int × List QuotaReq) (i : Nat) =>
      match st.2[i]? with
      | none => st
      | some r =>
        let p := qstep st.1 r
        (p.1, st.2.set i p.2))
    (init, List.replicate n { readVal := none, outcome := none })

/-- C2 counterexample. A grant with exactly one remaining use, two
concurrent requests, both reads scheduled before either write: BOTH requests
succeed (the write is an unconditional read-then-write, not an atomic
conditional decrement), refuting the claim that exactly one of them
succeeds. -/
theorem quota_interleaving_both_succeed :
    ((runSched 1 2 [0, 1, 0, 1]).2.countP (fun r => r.outcome == some true)) = 2 ∧
    ((runSched 1 2 [0, 1, 0, 1]).2.countP (fun r => r.outcome == some false)) = 0 ∧
    (runSched 1 2 [0, 1, 0, 1]).1 = 0 := by
  decide

/-- The non-interleaved execution of `n` quota consumptions: each request
runs its read, check and write to completion before the next starts, exactly
as the handler's code path behaves without interference. Returns the
per-request outcomes in order and the final counter. -/
def runSeqOutcomes : Nat → Int → List Bool × Int
  | 0, ledger => ([], ledger)
  | Nat.succ n, ledger =>
    if ledger ≤ 0 then
      let rest := runSeqOutcomes n ledger
      (false :: rest.1, rest.2)
    else
      let rest := runSeqOutcomes n (ledger - 1)
      (true :: rest.1, rest.2)

/-- With nothing left, every sequential request is rejected. -/
theorem runSeqOutcomes_zero (n : Nat) :
    runSeqOutcomes n 0 = (List.replicate n false, 0) := by
  induction n with
  | zero => rfl
  | succ n ih => simp [runSeqOutcomes, ih, List.replicate_succ]

/-- C2 (amended). The quota consumption is a read-then-write pair (an
unconditional update to the read value minus one), not an atomic conditional
update; consequently only when the N ≥ 2 requests on a grant with one
remaining use execute without interleaving does exactly one succeed with the
ledger ending at 0 and the other N−1 observing the quota-exceeded outcome —
an interleaving of the reads and writes can let both of two requests
succeed. -/
theorem quota_sequential_exactly_one (n : Nat) (h : 2 ≤ n) :
    (runSeqOutcomes n 1).1.count true = 1 ∧
    (runSeqOutcomes n 1).1.count false = n - 1 ∧
    (runSeqOutcomes n 1).2 = 0 := by
  obtain ⟨m, rfl⟩ : ∃ m, n = m + 1 := ⟨n - 1, by omega⟩
  have h1 : ¬ ((1 : Int) ≤ 0) := by norm_num
  rw [runSeqOutcomes]
  simp only [h1, if_false]
  norm_num [runSeqOutcomes_zero, List.count_cons, List.count_replicate]

/-- Witness for C2 (amended) at N = 2. -/
theorem quota_sequential_exactly_one_witness :
    (runSeqOutcomes 2 1).1.count true = 1 ∧
    (runSeqOutcomes 2 1).1.count false = 2 - 1 ∧
    (runSeqOutcomes 2 1).2 = 0 :=
  quota_sequential_exactly_one 2 (by norm_num)

/-! ## SVG-to-PDF page-size policy (`frontend/svg-to-pdf-service/index.js`)

`getPageSizeFromViewBox` takes the value of the first `viewBox` attribute
extracted by the service's regular expression (`none` when the pattern is
absent), trims it, splits it on whitespace runs, converts each token with
`Number`, and accepts exactly four finite values whose third and fourth
entries (width and height) are positive. -/

/-- JS `String.prototype.trim`. -/
def jsTrim (s : String) : String :=
  String.mk (((s.data.dropWhile Char.isWhitespace).reverse.dropWhile
    Char.isWhitespace).reverse)

/-- Whitespace tokenisation: the non-empty maximal runs of non-whitespace
characters, accumulator-style. -/
def wsTokensAux : List Char → List Char → List String
  | [], acc => if acc.isEmpty then [] else [String.mk acc.reverse]
  | c :: cs, acc =>
    if c.isWhitespace then
      if acc.isEmpty then wsTokensAux cs []
      else String.mk acc.reverse :: wsTokensAux cs []
    else wsTokensAux cs (c :: acc)

/-- JS `.trim().split(/\s+/)`; on the empty string JS yields `[""]`. -/
def trimSplitWs (s : String) : List String :=
  if jsTrim s = "" then [""] else wsTokensAux (jsTrim s).data []

/-- Value of a run of decimal digits. -/
def digitsToNat (ds : List Char) : Nat :=
  ds.foldl (fun acc c => acc * 10 + (c.toNat - 48)) 0

/-- Digit value in bases up to 16; `none` when the character is not a digit
of the base. -/
def baseDigit (base : Nat) (c : Char) : Option Nat :=
  let v : Option Nat :=
    if c.isDigit then some (c.toNat - 48)
    else if 'a' ≤ c ∧ c ≤ 'f' then some (c.toNat - 87)
    else if 'A' ≤ c ∧ c ≤ 'F' then some (c.toNat - 55)
    else none
  match v with
  | some n => if n < base then some n else none
  | none => none

/-- Value of a digit run in the given base; `none` when the run is empty or
holds a character that is not a digit of the base. -/
def baseDigitsVal (base : Nat) (ds : List Char) : Option Nat :=
  if ds.isEmpty then none
  else
    ds.foldl
      (fun acc c =>
        match acc, baseDigit base c with
        | some a, some d => some (a * base + d)
        | _, _ => none)
      (some 0)

/-- An optionally signed decimal digit run, as an exponent value; `none`
when empty or non-numeric. -/
def expDigits (t : List Char) : Option Int :=
  let q : Int × List Char :=
    match t with
    | '-' :: u => (-1, u)
    | '+' :: u => (1, u)
    | u => (1, u)
  if !q.2.isEmpty && q.2.all Char.isDigit then some (q.1 * digitsToNat q.2)
  else none

/-- The optional exponent suffix of a decimal numeral: the empty suffix is
exponent 0; `e`/`E` followed by an optionally signed digit run is that
exponent; anything else makes the whole string a non-numeral. -/
def expSuffix (r : List Char) : Option Int :=
  match r with
  | [] => some 0
  | 'e' :: t => expDigits t
  | 'E' :: t => expDigits t
  | _ => none

/-- Exact value of the decimal numeral `sign * ip.frac * 10 ^ e`. -/
def decimalVal (sign : Int) (ip frac : List Char) (e : Int) : ℚ :=
  mkRat (sign * (digitsToNat ip * 10 ^ frac.length + digitsToNat frac) * 10 ^ e.toNat)
    (10 ^ (frac.length + (-e).toNat))

/-- A signed decimal numeral with optional fraction and optional exponent
(`StrDecimalLiteral` without `Infinity`), valued exactly. -/
def jsDecimal (cs : List Char) : Option ℚ :=
  let p : Int × List Char :=
    match cs with
    | '-' :: r => (-1, r)
    | '+' :: r => (1, r)
    | r => (1, r)
  let ip := p.2.takeWhile Char.isDigit
  let r1 := p.2.dropWhile Char.isDigit
  match r1 with
  | '.' :: r2 =>
    let frac := r2.takeWhile Char.isDigit
    let r3 := r2.dropWhile Char.isDigit
    if ip.isEmpty && frac.isEmpty then none
    else
      match expSuffix r3 with
      | none => none
      | some e => some (decimalVal p.1 ip frac e)
  | _ =>
    if ip.isEmpty then none
    else
      match expSuffix r1 with
      | none => none
      | some e => some (decimalVal p.1 ip [] e)

/-- Modelled JS `Number(...)`, as the service observes it through
`Number.isFinite` and comparisons: decimal numerals (optional sign,
fraction, exponent) and unsigned hex, octal and binary integer literals map
to their exact rational value; `Infinity` and non-numeric strings map to
`none` (not finite). Binary64 rounding and range are abstracted: in-range
numerals are valued exactly as rationals. -/
def jsNumber (s : String) : Option ℚ :=
  match s.data with
  | '0' :: 'x' :: ds => (baseDigitsVal 16 ds).map (fun n => mkRat n 1)
  | '0' :: 'X' :: ds => (baseDigitsVal 16 ds).map (fun n => mkRat n 1)
  | '0' :: 'o' :: ds => (baseDigitsVal 8 ds).map (fun n => mkRat n 1)
  | '0' :: 'O' :: ds => (baseDigitsVal 8 ds).map (fun n => mkRat n 1)
  | '0' :: 'b' :: ds => (baseDigitsVal 2 ds).map (fun n => mkRat n 1)
  | '0' :: 'B' :: ds => (baseDigitsVal 2 ds).map (fun n => mkRat n 1)
  | cs => jsDecimal cs

/-- The parts list `viewBoxMatch[1].trim().split(/\s+/).map(Number)`. -/
def viewBoxParts (raw : String) : List (Option ℚ) :=
  (trimSplitWs raw).map jsNumber

/-- The service's `getPageSizeFromViewBox`: `none` (JS `null`) unless the
attribute is present with exactly four finite numbers whose width and height
are positive, in which case `[width, height]`. -/
def getPageSizeFromViewBox (viewBoxAttr : Option String) : Option (ℚ × ℚ) :=
  match viewBoxAttr with
  | none => none
  | some raw =>
    if (viewBoxParts raw).length = 4 ∧ (viewBoxParts raw).all (fun v => v.isSome) then
      match (viewBoxParts raw)[2]?, (viewBoxParts raw)[3]? with
      | some (some w), some (some h) =>
        if w ≤ 0 ∨ h ≤ 0 then none else some (w, h)
      | _, _ => none
    else none

/-- The width and height a well-formed viewport declaration declares:
the attribute is present and holds exactly four finite numbers
(min-x, min-y, width, height); no positivity requirement. -/
def declaredViewport (viewBoxAttr : Option String) : Option (ℚ × ℚ) :=
  match viewBoxAttr with
  | none => none
  | some raw =>
    if (viewBoxParts raw).length = 4 ∧ (viewBoxParts raw).all (fun v => v.isSome) then
      match (viewBoxParts raw)[2]?, (viewBoxParts raw)[3]? with
      | some (some w), some (some h) => some (w, h)
      | _, _ => none
    else none

/-- The page size handed to `doc.addPage`: the computed size or the fixed
`'A4'` default. -/
inductive PageSel where
  | a4 : PageSel
  | custom (w h : ℚ) : PageSel
  deriving DecidableEq

/-- JS `getPageSizeFromViewBox(svgText) || 'A4'`. -/
def pageSizeFor (viewBoxAttr : Option String) : PageSel :=
  match getPageSizeFromViewBox viewBoxAttr with
  | some wh => PageSel.custom wh.1 wh.2
  | none => PageSel.a4

/-- Page dimensions in points; pdfkit's `'A4'` is 595.28 × 841.89. -/
def pageDims : PageSel → ℚ × ℚ
  | PageSel.a4 => (59528 / 100, 84189 / 100)
  | PageSel.custom w h => (w, h)

/-- The page-size computation factors through the declared viewport followed
by the positivity filter. -/
theorem getPageSize_through_declared (attr : Option String) :
    getPageSizeFromViewBox attr =
      (declaredViewport attr).bind
        (fun wh => if wh.1 ≤ 0 ∨ wh.2 ≤ 0 then none else some wh) := by
  cases attr with
  | none => rfl
  | some raw =>
    rw [getPageSizeFromViewBox, declaredViewport]
    by_cases hc : (viewBoxParts raw).length = 4 ∧
        (viewBoxParts raw).all (fun v => v.isSome) = true
    · rw [if_pos hc, if_pos hc]
      rcases h2 : (viewBoxParts raw)[2]? with _ | (_ | w) <;>
        rcases h3 : (viewBoxParts raw)[3]? with _ | (_ | h) <;>
          simp [h2, h3]
    · rw [if_neg hc, if_neg hc]
      rfl

/-- C8. For every vector-markup source, the normalizer sets the output
page size to the width and height declared in the embedded viewport metadata
when that metadata is present (a well-formed four-number declaration) and
both dimensions are positive finite numbers, and otherwise uses the fixed
default page size. -/
theorem viewport_page_size_policy (attr : Option String) :
    (∀ w h : ℚ, declaredViewport attr = some (w, h) → 0 < w → 0 < h →
      pageSizeFor attr = PageSel.custom w h ∧ pageDims (pageSizeFor attr) = (w, h)) ∧
    ((declaredViewport attr = none ∨
        ∃ w h : ℚ, declaredViewport attr = some (w, h) ∧ (w ≤ 0 ∨ h ≤ 0)) →
      pageSizeFor attr = PageSel.a4) := by
  constructor
  · intro w h hd hw hh
    have hg : getPageSizeFromViewBox attr = some (w, h) := by
      rw [getPageSize_through_declared, hd]
      have hn : ¬ (w ≤ 0 ∨ h ≤ 0) := by
        push_neg
        exact ⟨hw, hh⟩
      simp [hn]
    constructor
    · simp [pageSizeFor, hg]
    · simp [pageSizeFor, hg, pageDims]
  · intro hcase
    have hg : getPageSizeFromViewBox attr = none := by
      rcases hcase with hnone | ⟨w, h, hd, hle⟩
      · rw [getPageSize_through_declared, hnone]
        rfl
      · rw [getPageSize_through_declared, hd]
        simp [hle]
    simp [pageSizeFor, hg]

/-- Witness for C8: a declared 300×200 viewport yields a 300×200-point page,
a viewport declared in exponent notation as 1e3×2e2 yields a 1000×200-point
page, and an absent declaration yields the default. -/
theorem viewport_page_size_policy_witness :
    (declaredViewport (some "0 0 300 200") = some (300, 200) ∧
      (0 : ℚ) < 300 ∧ (0 : ℚ) < 200 ∧
      pageSizeFor (some "0 0 300 200") = PageSel.custom 300 200 ∧
      pageDims (pageSizeFor (some "0 0 300 200")) = (300, 200)) ∧
    (declaredViewport (some "0 0 1e3 2e2") = some (1000, 200) ∧
      pageSizeFor (some "0 0 1e3 2e2") = PageSel.custom 1000 200 ∧
      pageDims (pageSizeFor (some "0 0 1e3 2e2")) = (1000, 200)) ∧
    pageSizeFor none = PageSel.a4 :=
  ⟨⟨by decide, by norm_num, by norm_num,
    ((viewport_page_size_policy (some "0 0 300 200")).1 300 200 (by decide)
      (by norm_num) (by norm_num)).1,
    ((viewport_page_size_policy (some "0 0 300 200")).1 300 200 (by decide)
      (by norm_num) (by norm_num)).2⟩,
   ⟨by decide,
    ((viewport_page_size_policy (some "0 0 1e3 2e2")).1 1000 200 (by decide)
      (by norm_num) (by norm_num)).1,
    ((viewport_page_size_policy (some "0 0 1e3 2e2")).1 1000 200 (by decide)
      (by norm_num) (by norm_num)).2⟩,
   (viewport_page_size_policy none).2 (Or.inl rfl)⟩
